import Mathlib

/-!
Verification of the HeaterMeter control core (`src/arduino/heatermeter/grillpid.cpp`).

Shallow embedding conventions:
* C `float` values are idealised as `ℚ`; the float NaN sentinel ("invalid
  temperature") is an explicit `Option ℚ` with `none` as the invalid marker.
* AVR machine integers are `Nat`/`Int`; `unsigned int` is 16 bits wide on this
  target and arithmetic that can wrap is written with an explicit `% 65536`
  (`unsigned char` similarly with `% 256`).  Struct fields are plain `Nat`/`Int`
  and theorems carry the range hypotheses the hardware types guarantee.
* C signed division truncates toward zero; `cdiv` below models it.
* Compile-time configuration constants and a handful of one-line accessors live
  in `grillpid.h`, which is not part of the sources; those are modelled from the
  spec and are marked as such in their doc comments.
-/

/-- C99 signed integer division: the quotient is truncated toward zero
(`Int` division in Lean rounds toward negative infinity, so it is wrapped). -/
def cdiv (a b : Int) : Int :=
  if 0 ≤ a then (if 0 ≤ b then a / b else -(a / (-b)))
  else (if 0 ≤ b then -((-a) / b) else (-a) / (-b))

/-- C cast of a float to `int`: truncation toward zero of the rational value. -/
def ratTrunc (q : ℚ) : Int := cdiv q.num q.den

/-- Modelled from the spec: the C cast of a NaN float to `int` is undefined
behaviour; the spec treats invalid data as an in-band marker only.  We pick the
value avr-gcc produces (0); no claim proved below depends on this choice. -/
def nanInt : Int := 0

/-- C cast of a possibly-NaN float (`Option ℚ`) to `int`. -/
def floatToInt : Option ℚ → Int
  | none => nanInt
  | some q => ratTrunc q

/-- 16-bit unsigned subtraction `x - y` as performed on `unsigned int`. -/
def u16sub (x y : Nat) : Nat := (x % 65536 + (65536 - y % 65536)) % 65536

/-- Arduino `constrain(amt, low, high)` macro:
`(amt)<(low)?(low):((amt)>(high)?(high):(amt))`. -/
def constrain (amt low high : Int) : Int :=
  if amt < low then low else if amt > high then high else amt

/-- Modelled from the spec: the compile-time configuration constants defined in
the missing header `grillpid.h` (`LIDOPEN_MIN_AUTORESUME`, `TEMP_MEASURE_PERIOD`
in milliseconds, `TEMP_OVERSAMPLE_BITS` with oversample factor `4^n`, and the
two exponential smoothing factors `TEMPPROBE_AVG_SMOOTH` /
`PIDOUTPUT_AVG_SMOOTH`). -/
structure Consts where
  lidOpenMinAutoresume : Nat
  tempMeasurePeriod : Nat
  tempOversampleBits : Nat
  tempProbeAvgSmooth : ℚ
  pidOutputAvgSmooth : ℚ

/-- Index into the two-element alarm arrays (`ALARM_IDX_LOW` / `ALARM_IDX_HIGH`). -/
inductive AlarmIdx where
  | low
  | high
  deriving DecidableEq, Repr

/-- `ProbeAlarm`: thresholds and armed/ringing flags for the low and high side. -/
structure ProbeAlarm where
  thresholdLow : Int
  thresholdHigh : Int
  armedLow : Bool
  armedHigh : Bool
  ringingLow : Bool
  ringingHigh : Bool
  deriving DecidableEq, Repr

/-- `ProbeAlarm::getLow()`. -/
def ProbeAlarm.getLow (a : ProbeAlarm) : Int := a.thresholdLow

/-- `ProbeAlarm::getHigh()`. -/
def ProbeAlarm.getHigh (a : ProbeAlarm) : Int := a.thresholdHigh

/-- Modelled from the spec: `ProbeAlarm::getLowEnabled()` is declared in the
missing header; per the spec a threshold value of exactly zero means
"disabled". -/
def ProbeAlarm.getLowEnabled (a : ProbeAlarm) : Bool := a.thresholdLow ≠ 0

/-- Modelled from the spec: `ProbeAlarm::getHighEnabled()`, as for the low side. -/
def ProbeAlarm.getHighEnabled (a : ProbeAlarm) : Bool := a.thresholdHigh ≠ 0

/-- Modelled from the spec: `ProbeAlarm::silenceAll()` is declared in the
missing header; per the spec an invalid temperature "clears (silences) both
alarm flags", i.e. the two ringing flags. -/
def ProbeAlarm.silenceAll (a : ProbeAlarm) : ProbeAlarm :=
  { a with ringingLow := false, ringingHigh := false }

/-- `ProbeAlarm::updateStatus(int value)`; `lidOpen` is the value of the global
`pid.isLidOpen()` read at the end of the function. -/
def ProbeAlarm.updateStatus (lidOpen : Bool) (value : Int) (a : ProbeAlarm) : ProbeAlarm :=
  let a1 :=
    if a.getLowEnabled then
      (if value ≥ a.getLow + 1 then { a with armedLow := true }
       else if value < a.getLow ∧ a.armedLow then { a with ringingLow := true }
       else a)
    else a
  let a2 :=
    if a1.getHighEnabled then
      (if value < a1.getHigh - 1 then { a1 with armedHigh := true }
       else if value ≥ a1.getHigh ∧ a1.armedHigh then { a1 with ringingHigh := true }
       else a1)
    else a1
  if lidOpen then { a2 with ringingLow := false, ringingHigh := false } else a2

/-- `ProbeAlarm::setThreshold(unsigned char idx, int value)`: clear the side's
flags, then store the threshold unless the value is 0 ("0 just means silence"). -/
def ProbeAlarm.setThreshold (idx : AlarmIdx) (value : Int) (a : ProbeAlarm) : ProbeAlarm :=
  let a1 :=
    match idx with
    | .low => { a with armedLow := false, ringingLow := false }
    | .high => { a with armedHigh := false, ringingHigh := false }
  if value = 0 then a1
  else
    match idx with
    | .low => { a1 with thresholdLow := value }
    | .high => { a1 with thresholdHigh := value }

/-- `ProbeAlarm::setLow(int value)`. -/
def ProbeAlarm.setLow (value : Int) (a : ProbeAlarm) : ProbeAlarm :=
  a.setThreshold .low value

/-- `ProbeAlarm::setHigh(int value)`. -/
def ProbeAlarm.setHigh (value : Int) (a : ProbeAlarm) : ProbeAlarm :=
  a.setThreshold .high value

/-- Armed flag of the given side. -/
def ProbeAlarm.armedAt (a : ProbeAlarm) : AlarmIdx → Bool
  | .low => a.armedLow
  | .high => a.armedHigh

/-- Ringing flag of the given side. -/
def ProbeAlarm.ringingAt (a : ProbeAlarm) : AlarmIdx → Bool
  | .low => a.ringingLow
  | .high => a.ringingHigh

/-- Threshold of the given side. -/
def ProbeAlarm.thresholdAt (a : ProbeAlarm) : AlarmIdx → Int
  | .low => a.thresholdLow
  | .high => a.thresholdHigh

/-- Probe kinds (`PROBETYPE_INTERNAL`, thermistor probes, `PROBETYPE_TC_ANALOG`).
`calcTemp` only distinguishes the thermocouple/analog kind from the rest. -/
inductive ProbeType where
  | internal
  | thermistor
  | tcAnalog
  deriving DecidableEq, Repr

/-- `TempProbe`: raw accumulator state, calibration, temperatures and alarms.
`accumulator` is an `unsigned int` (16-bit), `accumulatedCount` an
`unsigned char`; `steinhart0..3` are the four calibration coefficients. -/
structure TempProbe where
  accumulator : Nat
  accumulatedCount : Nat
  probeType : ProbeType
  steinhart0 : ℚ
  steinhart1 : ℚ
  steinhart2 : ℚ
  steinhart3 : ℚ
  offset : ℚ
  temperature : Option ℚ
  temperatureAvg : Option ℚ
  alarms : ProbeAlarm
  deriving Repr

/-- Modelled from the spec: `TempProbe::hasTemperature()` is declared in the
missing header; true exactly when the stored temperature is not the invalid
(NaN) marker. -/
def TempProbe.hasTemperature (p : TempProbe) : Bool := p.temperature.isSome

/-- The `DIFFMAX(x,y,d)` macro `((x - y + d) <= (d*2U))`, evaluated in 16-bit
unsigned arithmetic. -/
def DIFFMAX (x y d : Nat) : Bool :=
  (u16sub x y + d) % 65536 ≤ (2 * d) % 65536

/-- `TempProbe::addAdcValue(unsigned int analog_temp)`: fold one oversampled
value into the accumulator, with outlier rejection, and bump the count. -/
def TempProbe.addAdcValue (c : Consts) (analog_temp : Nat) (p : TempProbe) : TempProbe :=
  let p1 :=
    if analog_temp = 0 then { p with accumulator := 0 }
    else if p.accumulatedCount = 0 then { p with accumulator := analog_temp }
    else if ¬ DIFFMAX analog_temp (p.accumulator / p.accumulatedCount)
        (2 ^ (6 + c.tempOversampleBits)) then { p with accumulator := 0 }
    else if p.accumulator ≠ 0 then
      { p with accumulator := (p.accumulator + analog_temp) % 65536 }
    else p
  { p1 with accumulatedCount := p1.accumulatedCount + 1 }

/-- `TempProbe::readTemp()`: one sub-period.  The abstract `analogRead` results
are passed in as `samples` (the caller takes `4 ^ TEMP_OVERSAMPLE_BITS` of
them); any sample that is 0 or at/above 1023 invalidates the whole batch,
otherwise the 16-bit sum is decimated by `TEMP_OVERSAMPLE_BITS`. -/
def TempProbe.readTemp (c : Consts) (samples : List Nat) (p : TempProbe) : TempProbe :=
  if samples.any (fun adc => adc == 0 || adc ≥ 1023) then p.addAdcValue c 0
  else p.addAdcValue c
    ((samples.foldl (fun acc adc => (acc + adc) % 65536) 0) >>> c.tempOversampleBits)

/-- `calcExpMovingAverage(smooth, currAverage, newValue)`: returns the new
average (NaN current average initialises to the new value). -/
def calcExpMovingAverage (smooth : ℚ) (currAverage : Option ℚ) (newValue : ℚ) : ℚ :=
  match currAverage with
  | none => newValue
  | some avg => avg + smooth * (newValue - avg)

/-- `TempProbe::setTemperatureC(float T)`: sanity window, Fahrenheit
conversion, per-probe offset; `units` is the global `pid.getUnits()`. -/
def TempProbe.setTemperatureC (units : Char) (T : ℚ) (p : TempProbe) : TempProbe :=
  if T ≤ -20 ∨ T > 500 then { p with temperature := none }
  else
    { p with
      temperature := some ((if units = 'F' then T * (9 / 5) + 32 else T) + p.offset) }

/-- The body of `TempProbe::calcTemp()` up to (not including) the trailing
average/alarm block: mean computation and temperature conversion.  The `Bool`
result records whether one of the early `return` statements was taken (units
mode `A`, or units mode `R` on a non-pit thermistor probe), which skips the
trailing block.  `isPit` models `this != pid.Probes[TEMP_PIT]`; `logFn` models
the `math.h` natural logarithm on the idealised rationals. -/
def TempProbe.calcTempMain (c : Consts) (units : Char) (isPit : Bool) (logFn : ℚ → ℚ)
    (p : TempProbe) : TempProbe × Bool :=
  let ADCmax : ℚ := 2 ^ (10 + c.tempOversampleBits) - 1
  if p.accumulatedCount ≠ 0 then
    let ADCval : Nat := p.accumulator / p.accumulatedCount
    let p := { p with accumulatedCount := 0 }
    if units = 'A' then ({ p with temperature := some (ADCval : ℚ) }, true)
    else if ADCval ≠ 0 then
      if p.probeType = ProbeType.tcAnalog then
        let mvScale := p.steinhart3
        let mvScale := if mvScale < 100 then 3300 / mvScale else mvScale
        (p.setTemperatureC units ((ADCval : ℚ) / ADCmax * mvScale), false)
      else
        let R : ℚ := p.steinhart3 / (ADCmax / (ADCval : ℚ) - 1)
        if units = 'R' ∧ ¬ isPit then ({ p with temperature := some R }, true)
        else
          let L := logFn R
          let T : ℚ := 1 / ((p.steinhart2 * L * L + p.steinhart1) * L + p.steinhart0)
          (p.setTemperatureC units (T - (27315 / 100)), false)
    else ({ p with temperature := none }, false)
  else (p, false)

/-- `TempProbe::calcTemp()`: full-period finalisation.  After the conversion
step (unless an early return was taken), a valid temperature is folded into
the smoothed average and the alarms are re-evaluated; an invalid one silences
the alarms.  `lidOpen` is the global `pid.isLidOpen()` read by
`ProbeAlarm::updateStatus`. -/
def TempProbe.calcTemp (c : Consts) (units : Char) (isPit lidOpen : Bool) (logFn : ℚ → ℚ)
    (p : TempProbe) : TempProbe :=
  let pr := p.calcTempMain c units isPit logFn
  if pr.2 then pr.1
  else
    match pr.1.temperature with
    | some t =>
        { pr.1 with
          temperatureAvg :=
            some (calcExpMovingAverage c.tempProbeAvgSmooth pr.1.temperatureAvg t),
          alarms := pr.1.alarms.updateStatus lidOpen (ratTrunc t) }
    | none => { pr.1 with alarms := pr.1.alarms.silenceAll }

/-- `GrillPid`: controller state.  `pidB/P/I/D` are the gain array `Pid[4]`
(indices `PIDB`, `PIDP`, `PIDI`, `PIDD`), `pidCurrentB/P/I/D` the current term
array `_pidCurrent[4]`; `pidCurrentD` may hold the NaN marker because the pit
probe's smoothed average can still be NaN when it is computed.  `pidOutput` is
the `unsigned char` output percentage, `lidOpenResumeCountdown` and
`lidOpenDuration` are `unsigned int` second counts, `lidOpenOffset`,
`minFanSpeed`, `maxFanSpeed` and `longPwmTmr` are `unsigned char`, and
`invertFan` / `fanOnlyMax` model the `PIDFLAG_INVERT_FAN` /
`PIDFLAG_FAN_ONLY_MAX` bits of `_outputFlags`. -/
structure GrillPid where
  setPoint : Int
  pidB : ℚ
  pidP : ℚ
  pidI : ℚ
  pidD : ℚ
  pidCurrentB : ℚ
  pidCurrentP : ℚ
  pidCurrentI : ℚ
  pidCurrentD : Option ℚ
  pidOutput : Nat
  pidOutputAvg : Option ℚ
  manualOutputMode : Bool
  pitTemperatureReached : Bool
  lidOpenResumeCountdown : Nat
  lidOpenDuration : Nat
  lidOpenOffset : Nat
  minFanSpeed : Nat
  maxFanSpeed : Nat
  invertFan : Bool
  fanOnlyMax : Bool
  longPwmTmr : Nat
  deriving Repr

/-- Modelled from the spec: `GrillPid::isLidOpen()` is declared in the missing
header.  The spec reconstructs it as: the countdown is active and fewer than
`LIDOPEN_MIN_AUTORESUME` seconds of the configured duration have elapsed. -/
def GrillPid.isLidOpen (c : Consts) (s : GrillPid) : Bool :=
  s.lidOpenResumeCountdown ≠ 0 ∧
    s.lidOpenDuration - s.lidOpenResumeCountdown < c.lidOpenMinAutoresume

/-- `GrillPid::calcPidOutput()`: one control-period PID evaluation.  `pit` is
`*Probes[TEMP_PIT]`.  The output is zeroed, then the function bails (leaving
the terms untouched) on an invalid pit temperature or lid-open mode; otherwise
the four terms are computed, with the integral accumulation gated by the
anti-windup test against the previous output, and the output is the clamped
truncated term sum. -/
def GrillPid.calcPidOutput (c : Consts) (pit : TempProbe) (s : GrillPid) : GrillPid :=
  let lastOutput := s.pidOutput
  let s0 := { s with pidOutput := 0 }
  match pit.temperature with
  | none => s0
  | some currentTemp =>
    if GrillPid.isLidOpen c s0 then s0
    else
      let error : ℚ := (s0.setPoint : ℚ) - currentTemp
      let pTerm : ℚ := s0.pidP * error
      let iTerm : ℚ :=
        if (error > 0 ∧ lastOutput < 100) ∨ (error < 0 ∧ lastOutput > 0) then
          s0.pidCurrentI + s0.pidI * error
        else s0.pidCurrentI
      let dTerm : Option ℚ := pit.temperatureAvg.map (fun av => s0.pidD * (av - currentTemp))
      let bTerm : ℚ := s0.pidB
      let control : Int :=
        match dTerm with
        | some dv => ratTrunc (bTerm + pTerm + iTerm + dv)
        | none => nanInt
      { s0 with
        pidCurrentB := bTerm
        pidCurrentP := pTerm
        pidCurrentI := iTerm
        pidCurrentD := dTerm
        pidOutput := (constrain control 0 100).toNat }

/-- `GrillPid::getFanSpeed()`: the requested fan speed, i.e. the output
percentage scaled to `_maxFanSpeed` (forced to 0 below 100% when
`PIDFLAG_FAN_ONLY_MAX` is set); an `unsigned char` return value. -/
def GrillPid.getFanSpeed (s : GrillPid) : Nat :=
  if s.fanOnlyMax ∧ s.pidOutput < 100 then 0
  else s.pidOutput * s.maxFanSpeed / 100 % 256

/-- `GrillPid::commitFanOutput()`: returns the updated state together with the
duty byte written by `analogWrite` (the fan-boost block is compiled out).
Above `_minFanSpeed` the duty is the direct `mappct` of the requested speed;
below it a 10-second "long pulse PWM" window of `PERIOD_SCALE` slots drives the
fan at `_minFanSpeed` for the first `PERIOD_SCALE * fanSpeed / _minFanSpeed`
slots and at 0 afterwards, advancing and wrapping `_longPwmTmr`. -/
def GrillPid.commitFanOutput (c : Consts) (s : GrillPid) : GrillPid × Nat :=
  let periodScale : Nat := 10000 / c.tempMeasurePeriod
  let fanSpeed := s.getFanSpeed
  let sf : GrillPid × Nat :=
    if fanSpeed ≥ s.minFanSpeed then ({ s with longPwmTmr := 0 }, fanSpeed)
    else
      let fs := if periodScale * fanSpeed % 65536 / s.minFanSpeed > s.longPwmTmr
                then s.minFanSpeed else 0
      let tmr0 := (s.longPwmTmr + 1) % 256
      let tmr := if tmr0 > (periodScale + 65536 - 1) % 65536 then 0 else tmr0
      ({ s with longPwmTmr := tmr }, fs)
  let fanSpeed2 := if sf.1.invertFan then (sf.1.maxFanSpeed + 256 - sf.2 % 256) % 256 else sf.2
  (sf.1, 255 * fanSpeed2 / 100 % 256)

/-- `GrillPid::resetLidOpenResumeCountdown()`. -/
def GrillPid.resetLidOpenResumeCountdown (s : GrillPid) : GrillPid :=
  { s with
    lidOpenResumeCountdown := s.lidOpenDuration
    pitTemperatureReached := false }

/-- `GrillPid::setSetPoint(int value)`. -/
def GrillPid.setSetPoint (value : Int) (s : GrillPid) : GrillPid :=
  { s with
    setPoint := value
    pitTemperatureReached := false
    manualOutputMode := false
    pidCurrentI := 0
    lidOpenResumeCountdown := 0 }

/-- `GrillPid::setPidOutput(int value)`. -/
def GrillPid.setPidOutput (value : Int) (s : GrillPid) : GrillPid :=
  { s with
    manualOutputMode := true
    pidOutput := (constrain value 0 100).toNat
    lidOpenResumeCountdown := 0 }

/-- `GrillPid::setLidOpenDuration(unsigned int value)`. -/
def GrillPid.setLidOpenDuration (c : Consts) (value : Nat) (s : GrillPid) : GrillPid :=
  { s with
    lidOpenDuration := if value > c.lidOpenMinAutoresume then value else c.lidOpenMinAutoresume }

/-- The control block of `GrillPid::doWork()` for one completed full period
(grillpid.cpp lines 485-519): unless in manual output mode, run
`calcPidOutput()`, then the temperature-reached / countdown / lid-open-event
cascade.  `pit` is `*Probes[TEMP_PIT]` after this period's `calcTemp()`; the
surrounding cadence (`millis` throttling, sub-period counting) and the
trailing `commitPidOutput()` are outside this function. -/
def GrillPid.doWorkControl (c : Consts) (pit : TempProbe) (s : GrillPid) : GrillPid :=
  if s.manualOutputMode then s
  else
    let s1 := s.calcPidOutput c pit
    let pitTemp : Int := floatToInt pit.temperature
    if pitTemp ≥ s1.setPoint ∧
        u16sub s1.lidOpenDuration s1.lidOpenResumeCountdown > c.lidOpenMinAutoresume then
      let s2 :=
        if ¬ s1.pitTemperatureReached then
          { s1 with
            pitTemperatureReached := true
            pidCurrentI := s1.pidCurrentI * (1 / 4) }
        else s1
      { s2 with lidOpenResumeCountdown := 0 }
    else if s1.lidOpenResumeCountdown ≠ 0 then
      { s1 with
        lidOpenResumeCountdown := u16sub s1.lidOpenResumeCountdown (c.tempMeasurePeriod / 1000) }
    else if s1.pitTemperatureReached ∧
        cdiv ((s1.setPoint - pitTemp) * 100) s1.setPoint ≥ (s1.lidOpenOffset : Int) ∧
        floatToInt s1.pidOutputAvg < 90 then
      s1.resetLidOpenResumeCountdown
    else s1

/-- Concrete configuration used by the witnesses below
(`TEMP_OVERSAMPLE_BITS = 0`, 1-second control period). -/
def cDefault : Consts :=
  { lidOpenMinAutoresume := 30, tempMeasurePeriod := 1000, tempOversampleBits := 0,
    tempProbeAvgSmooth := 1/4, pidOutputAvgSmooth := 1/4 }

/-- A `ProbeAlarm` with nothing set, for building concrete probes. -/
def alarmsOff : ProbeAlarm :=
  { thresholdLow := 0, thresholdHigh := 0, armedLow := false, armedHigh := false,
    ringingLow := false, ringingHigh := false }

/-- A thermistor probe with empty accumulator and the given temperatures, for
building concrete witness states. -/
def mkProbe (t av : Option ℚ) : TempProbe :=
  { accumulator := 0, accumulatedCount := 0, probeType := .thermistor,
    steinhart0 := 0, steinhart1 := 0, steinhart2 := 0, steinhart3 := 0, offset := 0,
    temperature := t, temperatureAvg := av, alarms := alarmsOff }

/-- A base controller state for building concrete witness states: automatic
mode, setpoint 225, all gains and terms zero, lid-open machinery idle. -/
def basePid : GrillPid :=
  { setPoint := 225, pidB := 0, pidP := 0, pidI := 0, pidD := 0,
    pidCurrentB := 0, pidCurrentP := 0, pidCurrentI := 0, pidCurrentD := none,
    pidOutput := 0, pidOutputAvg := none, manualOutputMode := false,
    pitTemperatureReached := false, lidOpenResumeCountdown := 0,
    lidOpenDuration := 240, lidOpenOffset := 6, minFanSpeed := 10,
    maxFanSpeed := 100, invertFan := false, fanOnlyMax := false, longPwmTmr := 0 }

/-- Pit probe used by the PID witnesses: valid temperature 200 with smoothed
average 200. -/
def pitW : TempProbe := mkProbe (some 200) (some 200)

/-- A state pinned at 100% output: bias gain 120 keeps the clamped output at
100 on every evaluation while the other gains are zero. -/
def c1Pinned : GrillPid :=
  { basePid with pidB := 120, pidCurrentB := 120, pidCurrentD := some 0, pidOutput := 100 }

/-- State for the C5 counterexample: temperature reached, lid-open offset 0,
setpoint 200, smoothed output average 50. -/
def c5Offset0 : GrillPid :=
  { basePid with
    setPoint := 200
    pitTemperatureReached := true
    lidOpenOffset := 0
    pidOutputAvg := some 50 }

/-- State for the C5 witness: temperature reached, lid-open offset 6 percent,
setpoint 200, smoothed output average 50. -/
def c5Dropped : GrillPid :=
  { basePid with
    setPoint := 200
    pitTemperatureReached := true
    pidOutputAvg := some 50 }

/-- Probe for the C9 counterexample: one accumulated oversampled value 5. -/
def c9RawProbe : TempProbe :=
  { mkProbe none none with accumulator := 5, accumulatedCount := 1 }

/-- Alarm state for the C8 witness: low threshold 100, low side armed and
ringing. -/
def alarmLow100 : ProbeAlarm :=
  { alarmsOff with
    thresholdLow := 100
    armedLow := true
    ringingLow := true }

theorem cdiv_nonpos_of_nonpos_of_pos (a b : Int) (ha : a ≤ 0) (hb : 0 < b) :
    cdiv a b ≤ 0 := by
  unfold cdiv
  split
  · have ha0 : a = 0 := le_antisymm ha (by assumption)
    subst ha0
    simp
  · split
    · have : 0 ≤ (-a) / b := Int.ediv_nonneg (by omega) (by omega)
      omega
    · omega

theorem constrain_toNat_le (x : Int) : (constrain x 0 100).toNat ≤ 100 := by
  unfold constrain
  split
  · simp
  · split <;> omega

theorem constrain_zero_hundred_toNat (x : Int) :
    ((constrain x 0 100).toNat : Int) = constrain x 0 100 := by
  unfold constrain
  split
  · simp
  · split <;> omega

theorem isLidOpen_set_pidOutput (c : Consts) (s : GrillPid) (x : Nat) :
    GrillPid.isLidOpen c { s with pidOutput := x } = GrillPid.isLidOpen c s := rfl

/-- Fields of `GrillPid` that `calcPidOutput` never writes. -/
theorem calcPidOutput_frame (c : Consts) (pit : TempProbe) (s : GrillPid) :
    (s.calcPidOutput c pit).setPoint = s.setPoint ∧
    (s.calcPidOutput c pit).lidOpenResumeCountdown = s.lidOpenResumeCountdown ∧
    (s.calcPidOutput c pit).lidOpenDuration = s.lidOpenDuration ∧
    (s.calcPidOutput c pit).lidOpenOffset = s.lidOpenOffset ∧
    (s.calcPidOutput c pit).pitTemperatureReached = s.pitTemperatureReached ∧
    (s.calcPidOutput c pit).manualOutputMode = s.manualOutputMode ∧
    (s.calcPidOutput c pit).pidOutputAvg = s.pidOutputAvg ∧
    (s.calcPidOutput c pit).pidB = s.pidB ∧
    (s.calcPidOutput c pit).pidP = s.pidP ∧
    (s.calcPidOutput c pit).pidI = s.pidI ∧
    (s.calcPidOutput c pit).pidD = s.pidD := by
  unfold GrillPid.calcPidOutput
  cases htemp : pit.temperature
  · simp
  · simp only []
    split <;> simp

/-- C10: Output-range invariant — after a PID evaluation (`calcPidOutput`,
which clamps the truncated term sum) and after `setPidOutput(value)` for any
integer argument (which clamps its argument), the stored output percentage
lies in [0, 100].  (The output field is a `Nat`, so the lower bound is stated
over `Int` casts.) -/
theorem c10_output_range (c : Consts) (pit : TempProbe) (s : GrillPid) (v : Int) :
    (0 ≤ ((s.calcPidOutput c pit).pidOutput : Int) ∧
      (s.calcPidOutput c pit).pidOutput ≤ 100) ∧
    (0 ≤ ((s.setPidOutput v).pidOutput : Int) ∧ (s.setPidOutput v).pidOutput ≤ 100) := by
  refine ⟨⟨by positivity, ?_⟩, ⟨by positivity, ?_⟩⟩
  · unfold GrillPid.calcPidOutput
    cases htemp : pit.temperature
    · simp
    · simp only []
      split
      · simp
      · exact constrain_toNat_le _
  · exact constrain_toNat_le _

/-- C3: Graceful degradation — when the pit temperature is invalid or the lid
is open, `calcPidOutput` produces exactly the input state with the output
percentage set to 0: the four stored term values (and everything else) are
untouched, and the function is total (the invalid temperature is handled
in-band; no error propagates). -/
theorem c3_graceful_degradation (c : Consts) (pit : TempProbe) (s : GrillPid) :
    (pit.temperature = none → s.calcPidOutput c pit = { s with pidOutput := 0 }) ∧
    (GrillPid.isLidOpen c s = true → s.calcPidOutput c pit = { s with pidOutput := 0 }) := by
  constructor
  · intro h
    unfold GrillPid.calcPidOutput
    rw [h]
  · intro h
    unfold GrillPid.calcPidOutput
    cases htemp : pit.temperature
    · rfl
    · simp only []
      rw [isLidOpen_set_pidOutput, h]
      simp

theorem c3_graceful_degradation_witness :
    (GrillPid.calcPidOutput
        { lidOpenMinAutoresume := 30, tempMeasurePeriod := 1000, tempOversampleBits := 0,
          tempProbeAvgSmooth := 1/4, pidOutputAvgSmooth := 1/4 }
        { accumulator := 0, accumulatedCount := 0, probeType := .thermistor,
          steinhart0 := 0, steinhart1 := 0, steinhart2 := 0, steinhart3 := 0, offset := 0,
          temperature := none, temperatureAvg := none,
          alarms := { thresholdLow := 0, thresholdHigh := 0, armedLow := false,
                      armedHigh := false, ringingLow := false, ringingHigh := false } }
        { setPoint := 225, pidB := 4, pidP := 3, pidI := (1:ℚ)/100, pidD := 5,
          pidCurrentB := 4, pidCurrentP := 9, pidCurrentI := 7, pidCurrentD := some 2,
          pidOutput := 55, pidOutputAvg := some 60, manualOutputMode := false,
          pitTemperatureReached := true, lidOpenResumeCountdown := 0,
          lidOpenDuration := 240, lidOpenOffset := 6, minFanSpeed := 10,
          maxFanSpeed := 100, invertFan := false, fanOnlyMax := false,
          longPwmTmr := 0 }).pidCurrentI = 7 := by
  rw [(c3_graceful_degradation _ _ _).1 rfl]

set_option maxHeartbeats 2000000 in
/-- C4: Alarm hysteresis — for an enabled low side `updateStatus` arms exactly
when `value ≥ low + 1` and, only once armed, rings when `value < low`; for an
enabled high side it arms exactly when `value < high - 1` and, once armed,
rings when `value ≥ high`; and when the lid-open condition is active both
ringing flags are forced false while arming is unaffected. -/
theorem c4_alarm_hysteresis (lid : Bool) (v : Int) (a : ProbeAlarm) :
    ((a.updateStatus lid v).armedLow =
      (a.armedLow || (a.getLowEnabled && decide (v ≥ a.getLow + 1)))) ∧
    ((a.updateStatus lid v).armedHigh =
      (a.armedHigh || (a.getHighEnabled && decide (v < a.getHigh - 1)))) ∧
    ((a.updateStatus false v).ringingLow =
      (a.ringingLow || (a.getLowEnabled && a.armedLow && decide (v < a.getLow)))) ∧
    ((a.updateStatus false v).ringingHigh =
      (a.ringingHigh || (a.getHighEnabled && a.armedHigh && decide (v ≥ a.getHigh)))) ∧
    ((a.updateStatus true v).ringingLow = false) ∧
    ((a.updateStatus true v).ringingHigh = false) := by
  unfold ProbeAlarm.updateStatus
  unfold ProbeAlarm.getLowEnabled ProbeAlarm.getHighEnabled ProbeAlarm.getLow ProbeAlarm.getHigh
  refine ⟨?_, ?_, ?_, ?_, ?_, ?_⟩ <;>
    (split_ifs <;> simp_all) <;>
    (try (split_ifs <;> simp_all)) <;>
    (try (intros; simp_all)) <;>
    try omega

/-- C8 (amended): `setThreshold` immediately clears the armed and ringing
flags of the side being set, and leaves the other side's flags and threshold
untouched; but a value of exactly 0 only silences — the stored threshold is
left unchanged rather than unset, so a previously enabled side remains enabled
and can re-arm and ring on subsequent evaluations. -/
theorem c8_threshold_set (idx : AlarmIdx) (v : Int) (a : ProbeAlarm) :
    ((a.setThreshold idx v).armedAt idx = false) ∧
    ((a.setThreshold idx v).ringingAt idx = false) ∧
    ((a.setThreshold idx v).thresholdAt idx = if v = 0 then a.thresholdAt idx else v) ∧
    (∀ j : AlarmIdx, j ≠ idx →
      (a.setThreshold idx v).armedAt j = a.armedAt j ∧
      (a.setThreshold idx v).ringingAt j = a.ringingAt j ∧
      (a.setThreshold idx v).thresholdAt j = a.thresholdAt j) := by
  unfold ProbeAlarm.setThreshold
  cases idx <;> by_cases hv : v = 0 <;>
    simp_all [ProbeAlarm.armedAt, ProbeAlarm.ringingAt, ProbeAlarm.thresholdAt] <;>
    (intro j hj; cases j <;> simp_all [ProbeAlarm.armedAt, ProbeAlarm.ringingAt,
      ProbeAlarm.thresholdAt])

/-- C8 counterexample: with the low threshold previously set to 100, calling
`setThreshold` with 0 does not disable the side — a later evaluation at 101
arms it and a further one at 99 makes it ring, contradicting the claim that no
subsequent evaluation can arm or ring that side until a nonzero threshold is
set. -/
theorem c8_counterexample :
    (((({ thresholdLow := 100, thresholdHigh := 0, armedLow := false, armedHigh := false,
          ringingLow := false, ringingHigh := false } : ProbeAlarm).setThreshold .low
          0).updateStatus false 101).updateStatus false 99).ringingLow = true := by
  decide

/-- Within the value ranges the hardware can produce, the wrap-around
`DIFFMAX` trick computes exactly "the absolute difference is at most `d`". -/
theorem DIFFMAX_iff (x y d : Nat) (hx : x < 32768) (hy : y < 32768) (hd2 : d ≤ 512) :
    DIFFMAX x y d = true ↔ ((x : Int) - y).natAbs ≤ d := by
  simp only [DIFFMAX, u16sub, decide_eq_true_eq]
  omega

/-- The outlier threshold `1 << (6 + TEMP_OVERSAMPLE_BITS)` is exactly 6.25%
(1/16) of the oversampled full-scale range `1 << (10 + TEMP_OVERSAMPLE_BITS)`. -/
theorem oversample_threshold_eq (n : Nat) : 2 ^ (10 + n) / 16 = 2 ^ (6 + n) := by
  have h : 2 ^ (10 + n) = 16 * 2 ^ (6 + n) := by
    rw [show 10 + n = 4 + (6 + n) from by omega, pow_add]
    norm_num
  omega





/-- C2 (amended): per sub-period, a raw sample of 0 or at/above 1023 discards
the whole batch (accumulator forced to 0); otherwise the oversampled value is
stored directly when it is the first of the period, resets the accumulator to
0 when it differs from the running mean by more than 6.25% of the oversampled
full-scale range, and otherwise is added to the accumulator — provided the
accumulator is nonzero; if a previous discard left the accumulator at 0, an
in-range value is *not* added and the accumulator stays 0.  The count is
incremented in all cases.  The range hypotheses state what the 10-bit ADC and
the `unsigned char` sub-period count guarantee. -/
theorem c2_subperiod_accumulation (c : Consts) (p : TempProbe) (v : Nat) (samples : List Nat)
    (hb : c.tempOversampleBits ≤ 3)
    (hv : v < 32768)
    (hmean : p.accumulator / p.accumulatedCount < 32768) :
    (samples.any (fun adc => adc == 0 || adc ≥ 1023) = true →
      (p.readTemp c samples).accumulator = 0 ∧
      (p.readTemp c samples).accumulatedCount = p.accumulatedCount + 1) ∧
    (v ≠ 0 → p.accumulatedCount = 0 → (p.addAdcValue c v).accumulator = v) ∧
    (v ≠ 0 → p.accumulatedCount ≠ 0 →
      ((v : Int) - (p.accumulator / p.accumulatedCount : Nat)).natAbs >
        2 ^ (10 + c.tempOversampleBits) / 16 →
      (p.addAdcValue c v).accumulator = 0) ∧
    (v ≠ 0 → p.accumulatedCount ≠ 0 →
      ((v : Int) - (p.accumulator / p.accumulatedCount : Nat)).natAbs ≤
        2 ^ (10 + c.tempOversampleBits) / 16 →
      (p.addAdcValue c v).accumulator =
        (if p.accumulator ≠ 0 then (p.accumulator + v) % 65536 else 0)) ∧
    ((p.addAdcValue c v).accumulatedCount = p.accumulatedCount + 1) := by
  have hdru : 2 ^ (6 + c.tempOversampleBits) ≤ 512 := by
    calc 2 ^ (6 + c.tempOversampleBits) ≤ 2 ^ 9 :=
          Nat.pow_le_pow_right (by norm_num) (by omega)
    _ = 512 := by norm_num
  have hdm := DIFFMAX_iff v (p.accumulator / p.accumulatedCount)
    (2 ^ (6 + c.tempOversampleBits)) hv hmean hdru
  rw [oversample_threshold_eq]
  refine ⟨?_, ?_, ?_, ?_, ?_⟩
  · intro hbad
    unfold TempProbe.readTemp
    rw [hbad]
    simp [TempProbe.addAdcValue]
  · intro hv0 hc0
    simp [TempProbe.addAdcValue, hv0, hc0]
  · intro hv0 hc0 hgt
    have hdm2 : DIFFMAX v (p.accumulator / p.accumulatedCount)
        (2 ^ (6 + c.tempOversampleBits)) = false := by
      rw [← Bool.not_eq_true, hdm]
      omega
    simp [TempProbe.addAdcValue, hv0, hc0, hdm2]
  · intro hv0 hc0 hle
    have hdm2 : DIFFMAX v (p.accumulator / p.accumulatedCount)
        (2 ^ (6 + c.tempOversampleBits)) = true := hdm.mpr hle
    by_cases hacc : p.accumulator = 0
    · simp [TempProbe.addAdcValue, hv0, hc0, hacc]
      split <;> simp [hacc]
    · simp [TempProbe.addAdcValue, hv0, hc0, hdm2, hacc]
  · unfold TempProbe.addAdcValue
    split_ifs <;> simp

/-- C2 counterexample: with the accumulator at 0 after a discard and one
sample counted, the in-range oversampled value 50 (within 6.25% of the running
mean 0) is *not* added: the accumulator stays 0, against the claim that the
value "is added to the accumulator in every other case". -/
theorem c2_counterexample :
    ((50 : Nat) ≠ 0) ∧
    ({ mkProbe none none with accumulatedCount := 1 } : TempProbe).accumulatedCount ≠ 0 ∧
    (((50 : Int) -
        (({ mkProbe none none with accumulatedCount := 1 } : TempProbe).accumulator /
          ({ mkProbe none none with accumulatedCount := 1 } : TempProbe).accumulatedCount
          : Nat)).natAbs ≤ 2 ^ (10 + cDefault.tempOversampleBits) / 16) ∧
    (({ mkProbe none none with accumulatedCount := 1 } : TempProbe).addAdcValue
        cDefault 50).accumulator = 0 := by
  refine ⟨by decide, by decide, by decide, ?_⟩
  decide

theorem c2_subperiod_accumulation_witness :
    ((mkProbe none none).readTemp cDefault [512, 0, 700]).accumulator = 0 ∧
    ((mkProbe none none).addAdcValue cDefault 500).accumulator = 500 ∧
    (({ mkProbe none none with accumulator := 500, accumulatedCount := 1 }
        : TempProbe).addAdcValue cDefault 600).accumulator = 0 ∧
    (({ mkProbe none none with accumulator := 500, accumulatedCount := 1 }
        : TempProbe).addAdcValue cDefault 530).accumulator = 1030 ∧
    (({ mkProbe none none with accumulator := 500, accumulatedCount := 1 }
        : TempProbe).addAdcValue cDefault 530).accumulatedCount = 2 := by
  have h1 := (c2_subperiod_accumulation cDefault (mkProbe none none) 1 [512, 0, 700]
    (by decide) (by decide) (by decide)).1 (by decide)
  have h2 := (c2_subperiod_accumulation cDefault (mkProbe none none) 500 []
    (by decide) (by decide) (by decide)).2.1 (by decide) (by decide)
  have h3 := (c2_subperiod_accumulation cDefault
    { mkProbe none none with accumulator := 500, accumulatedCount := 1 } 600 []
    (by decide) (by decide) (by decide)).2.2.1 (by decide) (by decide) (by decide)
  have h4 := (c2_subperiod_accumulation cDefault
    { mkProbe none none with accumulator := 500, accumulatedCount := 1 } 530 []
    (by decide) (by decide) (by decide)).2.2.2.1 (by decide) (by decide) (by decide)
  have h5 := (c2_subperiod_accumulation cDefault
    { mkProbe none none with accumulator := 500, accumulatedCount := 1 } 530 []
    (by decide) (by decide) (by decide)).2.2.2.2
  refine ⟨h1.1, h2, h3, ?_, ?_⟩
  · rw [h4]
    decide
  · rw [h5]

/-- C7: Fan modulation — with the invert-fan and fan-only-at-max flags clear
and the configured percentages in range, a requested fan speed at or above
`_minFanSpeed` resets the long-pulse phase counter and drives the direct
proportional duty `255 * requested / 100`; a requested speed below
`_minFanSpeed` drives the duty of exactly `_minFanSpeed` for the first
`PERIOD_SCALE * requested / _minFanSpeed` slots of the
`PERIOD_SCALE`-slot 10-second window and 0 for the remaining slots, never a
continuous sub-minimum duty, incrementing the phase counter each cycle and
wrapping it at `PERIOD_SCALE`. -/
theorem c7_fan_modulation (c : Consts) (s : GrillPid)
    (hinv : s.invertFan = false)
    (hfom : s.fanOnlyMax = false)
    (hout : s.pidOutput ≤ 100)
    (hmax : s.maxFanSpeed ≤ 100)
    (hmin : s.minFanSpeed ≤ 100)
    (htmr : s.longPwmTmr < 255)
    (hN1 : 0 < 10000 / c.tempMeasurePeriod)
    (hN2 : 10000 / c.tempMeasurePeriod ≤ 100) :
    (s.getFanSpeed ≥ s.minFanSpeed →
      (s.commitFanOutput c).1.longPwmTmr = 0 ∧
      (s.commitFanOutput c).2 = 255 * s.getFanSpeed / 100) ∧
    (s.getFanSpeed < s.minFanSpeed →
      ((s.commitFanOutput c).2 =
        (if s.longPwmTmr < (10000 / c.tempMeasurePeriod) * s.getFanSpeed / s.minFanSpeed
         then 255 * s.minFanSpeed / 100 else 0)) ∧
      ((s.commitFanOutput c).1.longPwmTmr =
        (if s.longPwmTmr + 1 ≥ 10000 / c.tempMeasurePeriod then 0 else s.longPwmTmr + 1))) := by
  have hr : s.getFanSpeed ≤ 100 := by
    unfold GrillPid.getFanSpeed
    split
    · omega
    · have : s.pidOutput * s.maxFanSpeed ≤ 100 * 100 := Nat.mul_le_mul hout hmax
      omega
  have hduty : ∀ g : Nat, g ≤ 100 → 255 * g / 100 % 256 = 255 * g / 100 := by
    intro g hg
    omega
  have hNg : 10000 / c.tempMeasurePeriod * s.getFanSpeed ≤ 10000 := by
    calc 10000 / c.tempMeasurePeriod * s.getFanSpeed ≤ 100 * 100 :=
          Nat.mul_le_mul hN2 hr
    _ = 10000 := by norm_num
  have hmod1 : 10000 / c.tempMeasurePeriod * s.getFanSpeed % 65536 =
      10000 / c.tempMeasurePeriod * s.getFanSpeed := by omega
  have hmod2 : (s.longPwmTmr + 1) % 256 = s.longPwmTmr + 1 := by omega
  have hmod3 : (10000 / c.tempMeasurePeriod + 65536 - 1) % 65536 =
      10000 / c.tempMeasurePeriod - 1 := by omega
  constructor
  · intro h
    refine ⟨?_, ?_⟩
    · simp only [GrillPid.commitFanOutput]
      rw [if_pos h]
    · simp only [GrillPid.commitFanOutput]
      rw [if_pos h]
      simp only [hinv, Bool.false_eq_true, if_false]
      exact hduty _ hr
  · intro h
    have hcond : ¬ (s.getFanSpeed ≥ s.minFanSpeed) := by omega
    refine ⟨?_, ?_⟩
    · simp only [GrillPid.commitFanOutput]
      rw [if_neg hcond]
      simp only [hinv, Bool.false_eq_true, if_false, hmod1, hmod2, hmod3]
      split_ifs <;> (try simp) <;> omega
    · simp only [GrillPid.commitFanOutput]
      rw [if_neg hcond]
      simp only [hinv, Bool.false_eq_true, if_false, hmod1, hmod2, hmod3]
      split_ifs <;> (try simp) <;> omega

theorem c7_fan_modulation_witness :
    (({ basePid with pidOutput := 40, minFanSpeed := 25 } : GrillPid).getFanSpeed ≥ 25 ∧
      (({ basePid with pidOutput := 40, minFanSpeed := 25 } : GrillPid).commitFanOutput
        cDefault).1.longPwmTmr = 0 ∧
      (({ basePid with pidOutput := 40, minFanSpeed := 25 } : GrillPid).commitFanOutput
        cDefault).2 = 102) ∧
    (({ basePid with pidOutput := 10, minFanSpeed := 25 } : GrillPid).getFanSpeed < 25 ∧
      (({ basePid with pidOutput := 10, minFanSpeed := 25 } : GrillPid).commitFanOutput
        cDefault).2 = 63 ∧
      (({ basePid with pidOutput := 10, minFanSpeed := 25 } : GrillPid).commitFanOutput
        cDefault).1.longPwmTmr = 1) := by
  have hA := (c7_fan_modulation cDefault { basePid with pidOutput := 40, minFanSpeed := 25 }
    rfl rfl (by decide) (by decide) (by decide) (by decide) (by decide) (by decide)).1
    (by decide)
  have hB := (c7_fan_modulation cDefault { basePid with pidOutput := 10, minFanSpeed := 25 }
    rfl rfl (by decide) (by decide) (by decide) (by decide) (by decide) (by decide)).2
    (by decide)
  refine ⟨⟨by decide, hA.1, ?_⟩, ⟨by decide, ?_, ?_⟩⟩
  · rw [hA.2]; decide
  · rw [hB.1]; decide
  · rw [hB.2]; decide

/-- One-step characterisation of the integral term: with a valid pit
temperature and the lid closed, `calcPidOutput` adds `Ki * error` to the
integral term exactly when the anti-windup gate
`(error > 0 ∧ lastOutput < 100) ∨ (error < 0 ∧ lastOutput > 0)` is open, and
leaves it frozen otherwise. -/
theorem calcPidOutput_iTerm_eq (c : Consts) (pit : TempProbe) (s : GrillPid) (t : ℚ)
    (hT : pit.temperature = some t)
    (hLid : GrillPid.isLidOpen c s = false) :
    (s.calcPidOutput c pit).pidCurrentI =
      (if ((s.setPoint : ℚ) - t > 0 ∧ s.pidOutput < 100) ∨
          ((s.setPoint : ℚ) - t < 0 ∧ s.pidOutput > 0)
       then s.pidCurrentI + s.pidI * ((s.setPoint : ℚ) - t)
       else s.pidCurrentI) := by
  simp only [GrillPid.calcPidOutput, hT, isLidOpen_set_pidOutput, hLid, Bool.false_eq_true,
    if_false]

/-- C1: PID anti-windup gating — in a control-period evaluation with a valid
pit temperature and lid-open inactive (`calcPidOutput` is only reached with
manual override off), the integral term accumulates `Ki * error` exactly when
`(error > 0 ∧ previous output < 100) ∨ (error < 0 ∧ previous output > 0)`; in
particular, along any run in which the error stays positive and the output
stays pinned at 100, every iterate of the evaluation leaves the integral term
exactly unchanged. -/
theorem c1_anti_windup (c : Consts) (pit : TempProbe) (s : GrillPid) (t : ℚ)
    (hT : pit.temperature = some t)
    (hLid : GrillPid.isLidOpen c s = false) :
    ((s.calcPidOutput c pit).pidCurrentI =
      (if ((s.setPoint : ℚ) - t > 0 ∧ s.pidOutput < 100) ∨
          ((s.setPoint : ℚ) - t < 0 ∧ s.pidOutput > 0)
       then s.pidCurrentI + s.pidI * ((s.setPoint : ℚ) - t)
       else s.pidCurrentI)) ∧
    ((s.setPoint : ℚ) - t > 0 →
      (∀ n : ℕ, ((GrillPid.calcPidOutput c pit)^[n] s).pidOutput = 100) →
      ∀ n : ℕ, ((GrillPid.calcPidOutput c pit)^[n] s).pidCurrentI = s.pidCurrentI) := by
  refine ⟨calcPidOutput_iTerm_eq c pit s t hT hLid, ?_⟩
  intro hErr hPin n
  induction n with
  | zero => rfl
  | succ m ih =>
    have hinv : ∀ k : ℕ,
        ((GrillPid.calcPidOutput c pit)^[k] s).lidOpenResumeCountdown =
            s.lidOpenResumeCountdown ∧
          ((GrillPid.calcPidOutput c pit)^[k] s).lidOpenDuration = s.lidOpenDuration ∧
          ((GrillPid.calcPidOutput c pit)^[k] s).setPoint = s.setPoint := by
      intro k
      induction k with
      | zero => exact ⟨rfl, rfl, rfl⟩
      | succ j ihj =>
        rw [Function.iterate_succ_apply']
        have hF := calcPidOutput_frame c pit ((GrillPid.calcPidOutput c pit)^[j] s)
        exact ⟨hF.2.1.trans ihj.1, hF.2.2.1.trans ihj.2.1, hF.1.trans ihj.2.2⟩
    have hLidm : GrillPid.isLidOpen c ((GrillPid.calcPidOutput c pit)^[m] s) = false := by
      unfold GrillPid.isLidOpen at hLid ⊢
      rw [(hinv m).1, (hinv m).2.1]
      exact hLid
    rw [Function.iterate_succ_apply']
    rw [calcPidOutput_iTerm_eq c pit ((GrillPid.calcPidOutput c pit)^[m] s) t hT hLidm]
    rw [if_neg ?_, ih]
    rw [(hinv m).2.2, hPin m]
    rintro (⟨-, h100⟩ | ⟨hneg, -⟩)
    · omega
    · linarith



theorem c1_anti_windup_witness :
    (({ basePid with pidI := 1, pidCurrentI := 5, pidOutput := 50 } : GrillPid).calcPidOutput
        cDefault pitW).pidCurrentI = 30 ∧
    ((GrillPid.calcPidOutput cDefault pitW)^[5] c1Pinned).pidCurrentI = 0 := by
  have hfix : GrillPid.calcPidOutput cDefault pitW c1Pinned = c1Pinned := by
    simp only [GrillPid.calcPidOutput, pitW, mkProbe, c1Pinned, basePid, cDefault,
      GrillPid.isLidOpen, ratTrunc, cdiv, constrain, nanInt]
    norm_num
    decide
  have hIter : ∀ n : ℕ, (GrillPid.calcPidOutput cDefault pitW)^[n] c1Pinned = c1Pinned := by
    intro n
    induction n with
    | zero => rfl
    | succ m ih => rw [Function.iterate_succ_apply, hfix, ih]
  constructor
  · rw [(c1_anti_windup cDefault pitW
      { basePid with pidI := 1, pidCurrentI := 5, pidOutput := 50 } 200 rfl rfl).1]
    norm_num [basePid]
  · rw [(c1_anti_windup cDefault pitW c1Pinned 200 rfl rfl).2 (by norm_num [c1Pinned, basePid])
      (fun n => by rw [hIter n]; rfl) 5]
    rfl

/-- C6 (amended): with manual override off, no active countdown and the pit
at/above the setpoint, the temperature-reached transition fires *provided the
configured lid-open duration strictly exceeds `LIDOPEN_MIN_AUTORESUME`* (the
code guards the branch with `duration - countdown > LIDOPEN_MIN_AUTORESUME`):
on the first such period the flag is set, the accumulated integral term (after
this period's PID evaluation) is scaled by 0.25 and the countdown is reset to
0; on later such periods the flag stays set and the integral term is not
scaled again. -/
theorem c6_temperature_reached (c : Consts) (pit : TempProbe) (s : GrillPid) (t : ℚ)
    (hman : s.manualOutputMode = false)
    (hT : pit.temperature = some t)
    (hcd : s.lidOpenResumeCountdown = 0)
    (hd16 : s.lidOpenDuration < 65536)
    (hdur : s.lidOpenDuration > c.lidOpenMinAutoresume)
    (hge : ratTrunc t ≥ s.setPoint) :
    (s.pitTemperatureReached = false →
      (s.doWorkControl c pit).pitTemperatureReached = true ∧
      (s.doWorkControl c pit).pidCurrentI = (s.calcPidOutput c pit).pidCurrentI * (1 / 4) ∧
      (s.doWorkControl c pit).lidOpenResumeCountdown = 0) ∧
    (s.pitTemperatureReached = true →
      (s.doWorkControl c pit).pitTemperatureReached = true ∧
      (s.doWorkControl c pit).pidCurrentI = (s.calcPidOutput c pit).pidCurrentI ∧
      (s.doWorkControl c pit).lidOpenResumeCountdown = 0) := by
  obtain ⟨hsp1, hcd1, hdur1, hoff1, hflag1, hman1, havg1, hB1, hP1, hI1, hD1⟩ :=
    calcPidOutput_frame c pit s
  simp only [GrillPid.doWorkControl, hman, Bool.false_eq_true, if_false, hT, floatToInt,
    hsp1, hcd1, hdur1, hoff1, hflag1, havg1, hcd]
  have hu : u16sub s.lidOpenDuration 0 > c.lidOpenMinAutoresume := by
    unfold u16sub
    omega
  rw [if_pos ⟨hge, hu⟩]
  constructor
  · intro hflag
    simp [hflag]
  · intro hflag
    simp [hflag, hflag1]

/-- C6 counterexample: with the lid-open duration clamped at the minimum
(`LIDOPEN_MIN_AUTORESUME = 30`, duration 30), manual override off, no
countdown, the temperature-reached flag clear and the pit (230) at or above
the setpoint (225), the control period does *not* set the flag — the guard
`duration - countdown > LIDOPEN_MIN_AUTORESUME` fails, which the claim does
not mention. -/
theorem c6_counterexample :
    ratTrunc (230 : ℚ) ≥ (225 : Int) ∧
    (({ basePid with lidOpenDuration := 30 } : GrillPid).doWorkControl cDefault
      (mkProbe (some 230) (some 230))).pitTemperatureReached = false := by
  constructor
  · norm_num [ratTrunc, cdiv]
  · norm_num [GrillPid.doWorkControl, GrillPid.calcPidOutput, GrillPid.isLidOpen,
      GrillPid.resetLidOpenResumeCountdown, basePid, cDefault, mkProbe, floatToInt,
      ratTrunc, cdiv, constrain, nanInt, u16sub]

theorem c6_temperature_reached_witness :
    ((({ basePid with pidI := 2, pidCurrentI := 8 } : GrillPid).doWorkControl cDefault
        (mkProbe (some 230) (some 230))).pitTemperatureReached = true ∧
      (({ basePid with pidI := 2, pidCurrentI := 8 } : GrillPid).doWorkControl cDefault
        (mkProbe (some 230) (some 230))).pidCurrentI = 2 ∧
      (({ basePid with pidI := 2, pidCurrentI := 8 } : GrillPid).doWorkControl cDefault
        (mkProbe (some 230) (some 230))).lidOpenResumeCountdown = 0) := by
  have h := (c6_temperature_reached cDefault (mkProbe (some 230) (some 230))
    { basePid with pidI := 2, pidCurrentI := 8 } 230 rfl rfl rfl (by decide) (by decide)
    (by norm_num [ratTrunc, cdiv, basePid])).1 rfl
  refine ⟨h.1, ?_, h.2.2⟩
  rw [h.2.1]
  have hI : (({ basePid with pidI := 2, pidCurrentI := 8 } : GrillPid).calcPidOutput cDefault
      (mkProbe (some 230) (some 230))).pidCurrentI = 8 := by
    rw [calcPidOutput_iTerm_eq cDefault (mkProbe (some 230) (some 230))
      { basePid with pidI := 2, pidCurrentI := 8 } 230 rfl rfl]
    norm_num [basePid]
  rw [hI]
  norm_num

/-- C5 (amended): with manual override off, a valid pit temperature, a valid
smoothed output average and a positive setpoint, a control period in which the
temperature-reached flag is set, the countdown is 0, the pit has fallen at
least `LidOpenOffset` percent below the setpoint (as
`(setpoint - pit) * 100 / setpoint`, with the offset at least 1 percent — for
offset 0 with the pit exactly at setpoint the temperature-reached branch runs
instead) and the smoothed output average is below 90 declares a lid-open
event: the countdown is reset to the configured duration and the flag is
cleared.  When the countdown is 0, the pit is strictly below the setpoint and
any of the remaining conditions fails, neither countdown nor flag changes. -/
theorem c5_lid_open_event (c : Consts) (pit : TempProbe) (s : GrillPid) (t a : ℚ)
    (hman : s.manualOutputMode = false)
    (hT : pit.temperature = some t)
    (hAvg : s.pidOutputAvg = some a)
    (hsp : 0 < s.setPoint) :
    (s.pitTemperatureReached = true → s.lidOpenResumeCountdown = 0 →
      1 ≤ s.lidOpenOffset →
      cdiv ((s.setPoint - ratTrunc t) * 100) s.setPoint ≥ (s.lidOpenOffset : Int) →
      ratTrunc a < 90 →
      (s.doWorkControl c pit).lidOpenResumeCountdown = s.lidOpenDuration ∧
      (s.doWorkControl c pit).pitTemperatureReached = false) ∧
    (s.lidOpenResumeCountdown = 0 → ratTrunc t < s.setPoint →
      ¬(s.pitTemperatureReached = true ∧
        cdiv ((s.setPoint - ratTrunc t) * 100) s.setPoint ≥ (s.lidOpenOffset : Int) ∧
        ratTrunc a < 90) →
      (s.doWorkControl c pit).lidOpenResumeCountdown = 0 ∧
      (s.doWorkControl c pit).pitTemperatureReached = s.pitTemperatureReached) := by
  obtain ⟨hsp1, hcd1, hdur1, hoff1, hflag1, hman1, havg1, hB1, hP1, hI1, hD1⟩ :=
    calcPidOutput_frame c pit s
  simp only [GrillPid.doWorkControl, hman, Bool.false_eq_true, if_false, hT, hAvg, floatToInt,
    hsp1, hcd1, hdur1, hoff1, hflag1, havg1, GrillPid.resetLidOpenResumeCountdown]
  constructor
  · intro hflag hcd hoff hquot havl
    have hlt : ratTrunc t < s.setPoint := by
      by_contra hge
      push_neg at hge
      have hnum : (s.setPoint - ratTrunc t) * 100 ≤ 0 := by nlinarith
      have := cdiv_nonpos_of_nonpos_of_pos _ _ hnum hsp
      omega
    rw [if_neg (by rintro ⟨hge, -⟩; omega)]
    rw [hcd, if_neg (by simp)]
    rw [if_pos ⟨hflag, hquot, havl⟩]
    exact ⟨rfl, rfl⟩
  · intro hcd hlt hnot
    rw [if_neg (by rintro ⟨hge, -⟩; omega)]
    rw [hcd, if_neg (by simp)]
    rw [if_neg hnot]
    exact ⟨hcd1.trans hcd, hflag1⟩



/-- C5 counterexample: with `LidOpenOffset = 0` and the pit exactly at the
setpoint (200), all four conditions of the claim hold — flag set, countdown 0,
`(setpoint - pit) * 100 / setpoint = 0 ≥ 0`, smoothed average 50 below 90 —
yet no lid-open event is declared: the temperature-reached branch runs first
(pit ≥ setpoint with more than the minimum elapsed), so the countdown stays 0
and the flag stays set instead of countdown := duration and flag cleared. -/
theorem c5_counterexample :
    cdiv ((200 - ratTrunc (200 : ℚ)) * 100) 200 ≥ ((0 : Nat) : Int) ∧
    ratTrunc (50 : ℚ) < 90 ∧
    (c5Offset0.doWorkControl cDefault (mkProbe (some 200) (some 200))).lidOpenResumeCountdown
      = 0 ∧
    (c5Offset0.doWorkControl cDefault (mkProbe (some 200) (some 200))).pitTemperatureReached
      = true := by
  refine ⟨by norm_num [ratTrunc, cdiv], by norm_num [ratTrunc, cdiv], ?_, ?_⟩ <;>
    norm_num [GrillPid.doWorkControl, GrillPid.calcPidOutput, GrillPid.isLidOpen,
      GrillPid.resetLidOpenResumeCountdown, c5Offset0, basePid, cDefault, mkProbe, floatToInt,
      ratTrunc, cdiv, constrain, nanInt, u16sub]

theorem c5_lid_open_event_witness :
    (c5Dropped.doWorkControl cDefault (mkProbe (some 180) (some 180))).lidOpenResumeCountdown
      = 240 ∧
    (c5Dropped.doWorkControl cDefault (mkProbe (some 180) (some 180))).pitTemperatureReached
      = false := by
  have h := (c5_lid_open_event cDefault (mkProbe (some 180) (some 180)) c5Dropped
    180 50 rfl rfl rfl (by decide)).1 rfl rfl (by decide)
    (by norm_num [ratTrunc, cdiv, c5Dropped, basePid]) (by norm_num [ratTrunc, cdiv])
  exact ⟨h.1, h.2⟩

/-- C9 (amended): at the end of a full-period finalize the trailing
average/alarm block runs in units modes `C` and `F`, and in *every* units mode
when the period had no accumulated samples — but *not* when the raw-ADC
(`units = 'A'`) or non-pit-resistance (`units = 'R'`) early return was taken.
When it runs: a valid stored temperature is folded into the exponentially
smoothed average (initialised to the new value when the average is invalid,
else `avg + smooth * (new - avg)`) and the probe's alarms are re-evaluated at
the truncated temperature; an invalid one silences both alarm sides instead. -/
theorem c9_finalize_tail (c : Consts) (units : Char) (isPit lidOpen : Bool) (logFn : ℚ → ℚ)
    (p : TempProbe)
    (h : units = 'C' ∨ units = 'F' ∨ p.accumulatedCount = 0) :
    (∀ tq : ℚ, (p.calcTempMain c units isPit logFn).1.temperature = some tq →
      p.calcTemp c units isPit lidOpen logFn =
        { (p.calcTempMain c units isPit logFn).1 with
          temperatureAvg :=
            some (calcExpMovingAverage c.tempProbeAvgSmooth
              (p.calcTempMain c units isPit logFn).1.temperatureAvg tq)
          alarms :=
            ((p.calcTempMain c units isPit logFn).1.alarms.updateStatus lidOpen
              (ratTrunc tq)) }) ∧
    ((p.calcTempMain c units isPit logFn).1.temperature = none →
      p.calcTemp c units isPit lidOpen logFn =
        { (p.calcTempMain c units isPit logFn).1 with
          alarms := (p.calcTempMain c units isPit logFn).1.alarms.silenceAll }) ∧
    (∀ sm x : ℚ, calcExpMovingAverage sm none x = x) ∧
    (∀ sm av x : ℚ, calcExpMovingAverage sm (some av) x = av + sm * (x - av)) := by
  have hearly : (p.calcTempMain c units isPit logFn).2 = false := by
    unfold TempProbe.calcTempMain
    rcases h with h | h | h <;> subst_eqs <;> split_ifs <;> simp_all <;>
      split_ifs <;> rfl
  refine ⟨?_, ?_, fun sm x => rfl, fun sm av x => rfl⟩
  · intro tq htq
    simp only [TempProbe.calcTemp, hearly, Bool.false_eq_true, if_false, htq]
  · intro hnone
    simp only [TempProbe.calcTemp, hearly, Bool.false_eq_true, if_false, hnone]


/-- C9 counterexample: in raw-ADC units mode (`'A'`) with one accumulated
sample, `calcTemp` stores the valid temperature 5 but takes the early return:
the smoothed average is *not* initialised (it stays invalid) and the alarms
are not re-evaluated, against the claim that the tail runs in every units
mode. -/
theorem c9_counterexample :
    (c9RawProbe.calcTemp cDefault 'A' false false (fun x => x)).temperature = some 5 ∧
    (c9RawProbe.calcTemp cDefault 'A' false false (fun x => x)).temperatureAvg = none := by
  constructor <;>
    norm_num [TempProbe.calcTemp, TempProbe.calcTempMain, c9RawProbe, mkProbe, cDefault]

theorem c9_finalize_tail_witness :
    ((mkProbe (some 5) none).calcTemp cDefault 'C' false false
      (fun x => x)).temperatureAvg = some 5 := by
  have h := (c9_finalize_tail cDefault 'C' false false (fun x => x) (mkProbe (some 5) none)
    (Or.inl rfl)).1 5 rfl
  rw [h]
  norm_num [calcExpMovingAverage, TempProbe.calcTempMain, mkProbe]


theorem c8_threshold_set_witness :
    (alarmLow100.setThreshold .low 0).armedAt .low = false ∧
    (alarmLow100.setThreshold .low 0).ringingAt .low = false ∧
    (alarmLow100.setThreshold .low 0).thresholdAt .low = 100 ∧
    (alarmLow100.setThreshold .low 0).thresholdAt .high = alarmLow100.thresholdAt .high := by
  have h := c8_threshold_set .low 0 alarmLow100
  refine ⟨h.1, h.2.1, ?_, (h.2.2.2 .high (by decide)).2.2⟩
  rw [h.2.2.1]
  decide
